import Mathlib

/-!
# Verification of the `printpdf` document model

Shallow embedding of `src/api/types/pdf_document.rs` and `src/glob_macros.rs`.

The document model is a tree: a `PdfDocument` owns an ordered list of pages,
each page an ordered list of layers, each layer an ordered list of markers.
Mutating Rust methods taking `&mut self` are embedded as state-passing
functions `PdfDocument → ... → PdfDocument × result`; fallible lookups return
`Except ErrorKind`.  Rust `f32`/`f64` coordinates are modelled as `ℚ` (the
source performs no arithmetic on them beyond the fixed `mm_to_pt`
multiplication).  A Rust `panic!`/`unwrap` outcome is modelled by
`PanicOr.panics`.

The internals of `PdfPage`, `PdfLayer`, `PdfMarker`, the error enums and the
external font parser are not part of the two source files; where needed they
are modelled from the spec, and each such definition carries a doc comment
saying so.
-/

set_option autoImplicit false

namespace Printpdf

/-- PDF page index: `type PdfPageIndex = usize`. -/
abbrev PdfPageIndex := Nat

/-- PDF layer index: a page index paired with the layer slot local to that
page (`add_layer` returns `(*page, layer_index)`). -/
abbrev PdfLayerIndex := PdfPageIndex × Nat

/-- PDF marker index: page index, page-local layer slot, and layer-local
marker slot (`add_marker` returns `(layer.0, layer.1, marker_index)`). -/
abbrev PdfMarkerIndex := Nat × Nat × Nat

/-- Content registry index: `type PdfContentIndex = usize`. -/
abbrev PdfContentIndex := Nat

/-- Newtype wrapper for a font's registry index: `FontIndex(PdfContentIndex)`. -/
structure FontIndex where
  index : PdfContentIndex
  deriving Repr, DecidableEq

/-- Modelled from the spec: the error taxonomy (the `errors` module is not
under src/).  The index-error names follow the variants used by
`pdf_document.rs` (`PdfPageIndexError`, …); `FontParseFailed` is the spec's
`ContentError::FontParseFailed`. -/
inductive ErrorKind where
  | PdfPageIndexError
  | PdfLayerIndexError
  | PdfMarkerIndexError
  | FontParseFailed
  deriving Repr, DecidableEq

/-- A positioned marker: a bare placement point `(x, y)` in millimetres. -/
structure PdfMarker where
  x_mm : ℚ
  y_mm : ℚ
  deriving Repr, DecidableEq

/-- Modelled from the spec: a `PdfLayer` owns an ordered, append-only
sequence of positioned drawables/markers plus a display name (§3). -/
structure PdfLayer where
  name : String
  markers : List PdfMarker
  deriving Repr, DecidableEq

/-- Modelled from the spec: a `PdfPage` owns an ordered, append-only sequence
of layers plus physical dimensions in millimetres (§3). -/
structure PdfPage where
  width_mm : ℚ
  height_mm : ℚ
  layers : List PdfLayer
  deriving Repr, DecidableEq

/-- Modelled from the spec: a parsed font asset (the font parser is an
external collaborator, §6); only its identity matters to the document model,
so it is represented by the raw byte stream it was parsed from. -/
structure Font where
  bytes : List Nat
  deriving Repr, DecidableEq

/-- A polymorphic content-registry item (Rust: `Box<IntoPdfObject>`); the set
of kinds is open, `other` stands for any non-font item. -/
inductive ContentItem where
  | font (f : Font)
  | other (tag : Nat)
  deriving Repr, DecidableEq

/-- The inner `lopdf::Document` is an external collaborator with no
model-relevant state; embedded as a unit type. -/
def LopdfDocument := Unit
  deriving Repr, DecidableEq

/-- `lopdf::Document::new()`. -/
def LopdfDocument.new : LopdfDocument := ()

/-- Outcome of a Rust computation that may `panic!` (via `unwrap()` or
`unimplemented!()`) instead of returning. -/
inductive PanicOr (α : Type) where
  | panics
  | ok (value : α)
  deriving Repr, DecidableEq

/-- The PDF document: pages, title, creator, content registry, inner lopdf
document and the current marker (cursor). -/
structure PdfDocument where
  pages : List PdfPage
  title : String
  creator : String
  contents : List ContentItem
  inner : LopdfDocument
  current_marker : PdfMarkerIndex
  deriving Repr, DecidableEq

/-- Modelled from the spec: `PdfPage::new` (not under src/) — a page starts
with an initially empty layer sequence (§4.3 `add_page`). -/
def PdfPage.new (x_mm y_mm : ℚ) : PdfPage :=
  { width_mm := x_mm, height_mm := y_mm, layers := [] }

/-- Modelled from the spec: `PdfPage::add_layer` (not under src/) — appends a
layer to the page and returns its page-local slot (§4.3 `add_layer`). -/
def PdfPage.add_layer (p : PdfPage) (name : String) : PdfPage × Nat :=
  ({ p with layers := p.layers ++ [{ name := name, markers := [] }] },
   p.layers.length)

/-- Modelled from the spec: `PdfPage::get_layer` (not under src/) — O(1)
lookup failing with the invalid-layer error when the slot is out of range
(§4.3 resolution accessors). -/
def PdfPage.get_layer (p : PdfPage) (i : Nat) : Except ErrorKind PdfLayer :=
  match p.layers[i]? with
  | some l => .ok l
  | none => .error .PdfLayerIndexError

/-- Modelled from the spec: `PdfLayer::add_marker` (not under src/) — appends
a bare positional marker and returns its layer-local slot (§4.3
`add_marker`). -/
def PdfLayer.add_marker (l : PdfLayer) (x_mm y_mm : ℚ) : PdfLayer × Nat :=
  ({ l with markers := l.markers ++ [{ x_mm := x_mm, y_mm := y_mm }] },
   l.markers.length)

/-- Modelled from the spec: `PdfLayer::get_marker` (not under src/) — O(1)
lookup failing with the invalid-position error when the slot is out of range
(§4.3 resolution accessors). -/
def PdfLayer.get_marker (l : PdfLayer) (i : Nat) : Except ErrorKind PdfMarker :=
  match l.markers[i]? with
  | some m => .ok m
  | none => .error .PdfMarkerIndexError

/-- `PdfDocument::new`: one initial page, empty content registry, fresh inner
document, current marker `(0, 0, 0)`. -/
def PdfDocument.new (initial_page : PdfPage) (title creator : String) :
    PdfDocument :=
  { pages := [initial_page]
    title := title
    creator := creator
    contents := []
    inner := LopdfDocument.new
    current_marker := (0, 0, 0) }

/-- `PdfDocument::add_page`: pushes a fresh page and returns
`pages.len() - 1`. -/
def PdfDocument.add_page (d : PdfDocument) (x_mm y_mm : ℚ) :
    PdfDocument × PdfPageIndex :=
  let pages' := d.pages ++ [PdfPage.new x_mm y_mm]
  ({ d with pages := pages' }, pages'.length - 1)

/-- `PdfDocument::get_page`: `pages.get(*page)` or the invalid-page error. -/
def PdfDocument.get_page (d : PdfDocument) (page : PdfPageIndex) :
    Except ErrorKind PdfPage :=
  match d.pages[page]? with
  | some p => .ok p
  | none => .error .PdfPageIndexError

/-- `PdfDocument::get_mut_page`, embedded as the same pure lookup as
`get_page` (the write-back of `&mut` mutation is performed at the use
sites). -/
def PdfDocument.get_mut_page (d : PdfDocument) (page : PdfPageIndex) :
    Except ErrorKind PdfPage :=
  match d.pages[page]? with
  | some p => .ok p
  | none => .error .PdfPageIndexError

/-- `PdfDocument::add_layer`: `get_mut_page(page)?.add_layer(name)`, result
`(*page, layer_index)`; the page is looked up, mutated and written back. -/
def PdfDocument.add_layer (d : PdfDocument) (name : String)
    (page : PdfPageIndex) : PdfDocument × Except ErrorKind PdfLayerIndex :=
  match d.pages[page]? with
  | none => (d, .error .PdfPageIndexError)
  | some p =>
    let (p', layer_index) := p.add_layer name
    ({ d with pages := d.pages.set page p' }, .ok (page, layer_index))

/-- `PdfDocument::add_marker`:
`get_mut_page(layer.0)?.get_mut_layer(layer.1)?.add_marker(x, y)`, result
`(layer.0, layer.1, marker_index)`. -/
def PdfDocument.add_marker (d : PdfDocument) (x_mm y_mm : ℚ)
    (layer : PdfLayerIndex) : PdfDocument × Except ErrorKind PdfMarkerIndex :=
  match d.pages[layer.1]? with
  | none => (d, .error .PdfPageIndexError)
  | some p =>
    match p.layers[layer.2]? with
    | none => (d, .error .PdfLayerIndexError)
    | some l =>
      let (l', marker_index) := l.add_marker x_mm y_mm
      let p' := { p with layers := p.layers.set layer.2 l' }
      ({ d with pages := d.pages.set layer.1 p' },
       .ok (layer.1, layer.2, marker_index))

/-- `PdfDocument::add_arbitrary_content`: pushes the boxed item and returns
`contents.len() - 1`. -/
def PdfDocument.add_arbitrary_content (d : PdfDocument) (content : ContentItem) :
    PdfDocument × PdfContentIndex :=
  let contents' := d.contents ++ [content]
  ({ d with contents := contents' }, contents'.length - 1)

/-- `PdfDocument::add_font`: `Font::new(font_stream)?` then registration.
`Font::new` (the external font parser, spec §6 `parse_font`) is not under
src/, so its outcome is taken as the parameter `font_result`; the `?`
propagation and the registration mirror the source. -/
def PdfDocument.add_font (d : PdfDocument)
    (font_result : Except ErrorKind Font) :
    PdfDocument × Except ErrorKind FontIndex :=
  match font_result with
  | .error e => (d, .error e)
  | .ok font =>
    let (d', index) := d.add_arbitrary_content (.font font)
    (d', .ok { index := index })

/-- `PdfDocument::add_text`: the body is `// todo` followed by `Ok(())` — it
ignores every argument and changes nothing. -/
def PdfDocument.add_text (d : PdfDocument) (text : String) (font : FontIndex)
    (font_size : Nat) (position : PdfMarkerIndex) :
    PdfDocument × Except ErrorKind Unit :=
  (d, .ok ())

/-- `PdfDocument::get_layer`: `get_page(layer.0)?.get_layer(layer.1)?`. -/
def PdfDocument.get_layer (d : PdfDocument) (layer : PdfLayerIndex) :
    Except ErrorKind PdfLayer := do
  let p ← d.get_page layer.1
  p.get_layer layer.2

/-- `PdfDocument::get_mut_layer`:
`get_mut_page(layer.0)?.get_mut_layer(layer.1)?`, embedded as the same pure
lookup chain. -/
def PdfDocument.get_mut_layer (d : PdfDocument) (layer : PdfLayerIndex) :
    Except ErrorKind PdfLayer := do
  let p ← d.get_mut_page layer.1
  p.get_layer layer.2

/-- `PdfDocument::get_marker`:
`get_page(marker.0)?.get_layer(marker.1)?.get_marker(marker.2)?`. -/
def PdfDocument.get_marker (d : PdfDocument) (marker : PdfMarkerIndex) :
    Except ErrorKind PdfMarker := do
  let p ← d.get_page marker.1
  let l ← p.get_layer marker.2.1
  l.get_marker marker.2.2

/-- `PdfDocument::get_mut_marker`, embedded as the same pure lookup chain. -/
def PdfDocument.get_mut_marker (d : PdfDocument) (marker : PdfMarkerIndex) :
    Except ErrorKind PdfMarker := do
  let p ← d.get_mut_page marker.1
  let l ← p.get_layer marker.2.1
  l.get_marker marker.2.2

/-- `PdfDocument::get_inner`: `.get_marker(&self.current_marker).unwrap()` —
panics when the current marker does not resolve, otherwise returns the inner
document, the content registry and a clone of the marker. -/
def PdfDocument.get_inner (d : PdfDocument) :
    PanicOr (LopdfDocument × List ContentItem × PdfMarker) :=
  match d.get_marker d.current_marker with
  | .ok m => .ok (d.inner, d.contents, m)
  | .error _ => .panics

/-- `PdfDocument::set_current_marker`: unconditional assignment, no
validation. -/
def PdfDocument.set_current_marker (d : PdfDocument) (marker : PdfMarkerIndex) :
    PdfDocument :=
  { d with current_marker := marker }

/-- `PdfDocument::save`: the body is `unimplemented!()` — it unconditionally
panics and never returns `Ok` or `Err`, and never writes to the target. -/
def PdfDocument.save (d : PdfDocument) : PanicOr (Except ErrorKind Unit) :=
  .panics

/-- `mm_to_pt!`: millimetre-to-point conversion, `$mm * 2.834646`. -/
def mm_to_pt (mm : ℚ) : ℚ := mm * 2.834646

/-- Decidable equality for `Except`, so that concrete results can be checked
by `decide`. -/
instance instDecidableEqExcept {ε α : Type} [DecidableEq ε] [DecidableEq α] :
    DecidableEq (Except ε α) := fun x y =>
  match x, y with
  | .ok a, .ok b =>
    if h : a = b then .isTrue (by rw [h])
    else .isFalse (fun hc => h (Except.ok.inj hc))
  | .ok _, .error _ => .isFalse (fun hc => Except.noConfusion hc)
  | .error _, .ok _ => .isFalse (fun hc => Except.noConfusion hc)
  | .error e, .error f =>
    if h : e = f then .isTrue (by rw [h])
    else .isFalse (fun hc => h (Except.error.inj hc))

/-- The bound extracted from a successful list lookup. -/
theorem lt_length_of_lookup {α : Type} {l : List α} {i : Nat} {a : α}
    (h : l[i]? = some a) : i < l.length := by
  by_contra hc
  rw [List.getElem?_eq_none (Nat.le_of_not_lt hc)] at h
  exact Option.noConfusion h

/-- Claim C1: every address returned by `add_page`, `add_layer` or
`add_marker` resolves successfully through the matching accessor
(`get_page`, `get_layer`, `get_marker`) invoked immediately afterwards, with
no intervening mutation.  Quantifying over every document state `d` covers
every state reachable by any sequence of such calls. -/
theorem added_addresses_resolve (d : PdfDocument) :
    (∀ x y : ℚ, ((d.add_page x y).1.get_page (d.add_page x y).2).isOk = true) ∧
    (∀ (name : String) (page : PdfPageIndex) (li : PdfLayerIndex),
      (d.add_layer name page).2 = Except.ok li →
      ((d.add_layer name page).1.get_layer li).isOk = true) ∧
    (∀ (x y : ℚ) (layer : PdfLayerIndex) (mi : PdfMarkerIndex),
      (d.add_marker x y layer).2 = Except.ok mi →
      ((d.add_marker x y layer).1.get_marker mi).isOk = true) := by
  refine ⟨?_, ?_, ?_⟩
  · intro x y
    simp [PdfDocument.add_page, PdfDocument.get_page, Except.isOk,
      Except.toBool]
  · intro name page li h
    unfold PdfDocument.add_layer at h ⊢
    cases hp : d.pages[page]? with
    | none => simp [hp] at h
    | some p =>
      rw [hp] at h
      dsimp only [PdfPage.add_layer] at h ⊢
      obtain rfl : li = (page, p.layers.length) := (Except.ok.inj h).symm
      have hlt : page < d.pages.length := lt_length_of_lookup hp
      simp [PdfDocument.get_layer, PdfDocument.get_page, PdfPage.get_layer,
        Except.isOk, Except.toBool, Bind.bind, Except.bind,
        List.getElem?_set_eq_of_lt _ hlt, List.getElem?_concat_length]
  · intro x y layer mi h
    unfold PdfDocument.add_marker at h ⊢
    cases hp : d.pages[layer.1]? with
    | none => simp [hp] at h
    | some p =>
      rw [hp] at h
      dsimp only at h ⊢
      cases hl : p.layers[layer.2]? with
      | none => simp [hl] at h
      | some l =>
        rw [hl] at h
        dsimp only [PdfLayer.add_marker] at h ⊢
        obtain rfl : mi = (layer.1, layer.2, l.markers.length) :=
          (Except.ok.inj h).symm
        have hpl : layer.1 < d.pages.length := lt_length_of_lookup hp
        have hll : layer.2 < p.layers.length := lt_length_of_lookup hl
        simp [PdfDocument.get_marker, PdfDocument.get_page, PdfPage.get_layer,
          PdfLayer.get_marker, Except.isOk, Except.toBool, Bind.bind,
          Except.bind, List.getElem?_set_eq_of_lt _ hpl,
          List.getElem?_set_eq_of_lt _ hll, List.getElem?_concat_length]

/-- Witness for C1: on a fresh document, `add_layer` on page 0 returns
address `(0, 0)` and it resolves; `add_marker` on that layer returns
`(0, 0, 0)` and it resolves; the `add_page` part is instantiated as well. -/
theorem added_addresses_resolve_witness :
    ((((PdfDocument.new (PdfPage.new 210 297) "T" "C").add_page 100 100).1.get_page
      ((PdfDocument.new (PdfPage.new 210 297) "T" "C").add_page 100 100).2).isOk = true) ∧
    ((((PdfDocument.new (PdfPage.new 210 297) "T" "C").add_layer "L1" 0).1.get_layer
      (0, 0)).isOk = true) ∧
    (((((PdfDocument.new (PdfPage.new 210 297) "T" "C").add_layer "L1" 0).1.add_marker
      10 20 (0, 0)).1.get_marker (0, 0, 0)).isOk = true) :=
  ⟨(added_addresses_resolve _).1 100 100,
   (added_addresses_resolve _).2.1 "L1" 0 (0, 0) (by decide),
   (added_addresses_resolve _).2.2 10 20 (0, 0) (0, 0, 0) (by decide)⟩

/-- Claim C2: composite-address resolution validates page → layer → position
and reports the first failing link.  An out-of-range page component yields
the invalid-page error regardless of the remaining components; an in-range
page with an out-of-range layer yields the invalid-layer error; in-range
page and layer with an out-of-range position yield the invalid-position
error.  This holds for `get_layer`, `get_marker` and their mutable
counterparts alike. -/
theorem resolution_reports_first_failing_link (d : PdfDocument)
    (mi : PdfMarkerIndex) :
    (d.pages.length ≤ mi.1 →
      d.get_layer (mi.1, mi.2.1) = Except.error ErrorKind.PdfPageIndexError ∧
      d.get_mut_layer (mi.1, mi.2.1) = Except.error ErrorKind.PdfPageIndexError ∧
      d.get_marker mi = Except.error ErrorKind.PdfPageIndexError ∧
      d.get_mut_marker mi = Except.error ErrorKind.PdfPageIndexError) ∧
    (∀ p : PdfPage, d.pages[mi.1]? = some p → p.layers.length ≤ mi.2.1 →
      d.get_layer (mi.1, mi.2.1) = Except.error ErrorKind.PdfLayerIndexError ∧
      d.get_mut_layer (mi.1, mi.2.1) = Except.error ErrorKind.PdfLayerIndexError ∧
      d.get_marker mi = Except.error ErrorKind.PdfLayerIndexError ∧
      d.get_mut_marker mi = Except.error ErrorKind.PdfLayerIndexError) ∧
    (∀ (p : PdfPage) (l : PdfLayer), d.pages[mi.1]? = some p →
      p.layers[mi.2.1]? = some l → l.markers.length ≤ mi.2.2 →
      d.get_marker mi = Except.error ErrorKind.PdfMarkerIndexError ∧
      d.get_mut_marker mi = Except.error ErrorKind.PdfMarkerIndexError) := by
  refine ⟨?_, ?_, ?_⟩
  · intro hpage
    have hp : d.pages[mi.1]? = none := List.getElem?_eq_none hpage
    simp [PdfDocument.get_layer, PdfDocument.get_mut_layer,
      PdfDocument.get_marker, PdfDocument.get_mut_marker,
      PdfDocument.get_page, PdfDocument.get_mut_page, hp,
      Bind.bind, Except.bind]
  · intro p hp hlayer
    have hl : p.layers[mi.2.1]? = none := List.getElem?_eq_none hlayer
    simp [PdfDocument.get_layer, PdfDocument.get_mut_layer,
      PdfDocument.get_marker, PdfDocument.get_mut_marker,
      PdfDocument.get_page, PdfDocument.get_mut_page, PdfPage.get_layer,
      hp, hl, Bind.bind, Except.bind]
  · intro p l hp hl hmarker
    have hm : l.markers[mi.2.2]? = none := List.getElem?_eq_none hmarker
    simp [PdfDocument.get_marker, PdfDocument.get_mut_marker,
      PdfDocument.get_page, PdfDocument.get_mut_page, PdfPage.get_layer,
      PdfLayer.get_marker, hp, hl, hm, Bind.bind, Except.bind]

/-- Witness for C2, on the document obtained from a fresh document by adding
layer "L1" to page 0: address `(5, 0, 0)` has its page out of range and every
accessor reports the invalid-page error; address `(0, 3, 0)` has its page in
range but its layer out of range and every accessor reports the
invalid-layer error; address `(0, 0, 7)` has page and layer in range but its
position out of range and the marker accessors report the invalid-position
error. -/
theorem resolution_reports_first_failing_link_witness :
    (((PdfDocument.new (PdfPage.new 210 297) "T" "C").add_layer "L1" 0).1.get_marker
      (5, 0, 0) = Except.error ErrorKind.PdfPageIndexError ∧
    ((PdfDocument.new (PdfPage.new 210 297) "T" "C").add_layer "L1" 0).1.get_marker
      (0, 3, 0) = Except.error ErrorKind.PdfLayerIndexError ∧
    ((PdfDocument.new (PdfPage.new 210 297) "T" "C").add_layer "L1" 0).1.get_marker
      (0, 0, 7) = Except.error ErrorKind.PdfMarkerIndexError) :=
  ⟨((resolution_reports_first_failing_link
      ((PdfDocument.new (PdfPage.new 210 297) "T" "C").add_layer "L1" 0).1
      (5, 0, 0)).1 (by decide)).2.2.1,
   ((resolution_reports_first_failing_link
      ((PdfDocument.new (PdfPage.new 210 297) "T" "C").add_layer "L1" 0).1
      (0, 3, 0)).2.1
      { width_mm := 210, height_mm := 297,
        layers := [{ name := "L1", markers := [] }] } (by decide)
      (by decide)).2.2.1,
   ((resolution_reports_first_failing_link
      ((PdfDocument.new (PdfPage.new 210 297) "T" "C").add_layer "L1" 0).1
      (0, 0, 7)).2.2
      { width_mm := 210, height_mm := 297,
        layers := [{ name := "L1", markers := [] }] }
      { name := "L1", markers := [] } (by decide) (by decide) (by decide)).1⟩

/-- Counterexample to C3 as stated: on a fresh document (one page, so page
index 1 is out of range) `add_marker` at layer address `(1, 0)` does NOT
fail with the invalid-layer error — it fails with the invalid-page error,
because `add_marker` resolves the page component first via `get_mut_page`. -/
theorem add_marker_out_of_range_page_cex :
    ((PdfDocument.new (PdfPage.new 210 297) "T" "C").pages.length ≤ 1) ∧
    ((PdfDocument.new (PdfPage.new 210 297) "T" "C").add_marker 0 0 (1, 0)).2 ≠
      Except.error ErrorKind.PdfLayerIndexError ∧
    ((PdfDocument.new (PdfPage.new 210 297) "T" "C").add_marker 0 0 (1, 0)).2 =
      Except.error ErrorKind.PdfPageIndexError := by
  decide

/-- Claim C3 as amended: `add_marker` fails with the invalid-page error when
the `LayerIndex`'s page component is out of range; it fails with the
invalid-layer error when the page is in range but the layer component is out
of range; for every in-range `LayerIndex` it appends a bare positional
marker to that layer and returns its `PositionIndex`, which resolves to the
marker at the given coordinates. -/
theorem add_marker_spec (d : PdfDocument) (x y : ℚ) (pi li : Nat) :
    (d.pages.length ≤ pi →
      d.add_marker x y (pi, li) = (d, Except.error ErrorKind.PdfPageIndexError)) ∧
    (∀ p : PdfPage, d.pages[pi]? = some p → p.layers.length ≤ li →
      d.add_marker x y (pi, li) = (d, Except.error ErrorKind.PdfLayerIndexError)) ∧
    (∀ (p : PdfPage) (l : PdfLayer), d.pages[pi]? = some p →
      p.layers[li]? = some l →
      (d.add_marker x y (pi, li)).2 = Except.ok (pi, li, l.markers.length) ∧
      (d.add_marker x y (pi, li)).1.get_layer (pi, li) =
        Except.ok { l with markers := l.markers ++ [{ x_mm := x, y_mm := y }] } ∧
      (d.add_marker x y (pi, li)).1.get_marker (pi, li, l.markers.length) =
        Except.ok { x_mm := x, y_mm := y }) := by
  refine ⟨?_, ?_, ?_⟩
  · intro hpage
    have hp : d.pages[pi]? = none := List.getElem?_eq_none hpage
    simp [PdfDocument.add_marker, hp]
  · intro p hp hlayer
    have hl : p.layers[li]? = none := List.getElem?_eq_none hlayer
    simp [PdfDocument.add_marker, hp, hl]
  · intro p l hp hl
    have hpl : pi < d.pages.length := lt_length_of_lookup hp
    have hll : li < p.layers.length := lt_length_of_lookup hl
    refine ⟨?_, ?_, ?_⟩
    · simp [PdfDocument.add_marker, hp, hl, PdfLayer.add_marker]
    · simp [PdfDocument.add_marker, hp, hl, PdfLayer.add_marker,
        PdfDocument.get_layer, PdfDocument.get_page, PdfPage.get_layer,
        Bind.bind, Except.bind, List.getElem?_set_eq_of_lt _ hpl,
        List.getElem?_set_eq_of_lt _ hll]
    · simp [PdfDocument.add_marker, hp, hl, PdfLayer.add_marker,
        PdfDocument.get_marker, PdfDocument.get_page, PdfPage.get_layer,
        PdfLayer.get_marker, Bind.bind, Except.bind,
        List.getElem?_set_eq_of_lt _ hpl, List.getElem?_set_eq_of_lt _ hll,
        List.getElem?_concat_length]

/-- Witness for the amended C3, on the document obtained from a fresh
document by adding layer "L1" to page 0: the out-of-range page address
`(1, 0)` gives the invalid-page error; the in-range-page, out-of-range-layer
address `(0, 5)` gives the invalid-layer error; the in-range address
`(0, 0)` appends a marker whose returned address `(0, 0, 0)` resolves to the
marker at `(10, 20)`. -/
theorem add_marker_spec_witness :
    (((PdfDocument.new (PdfPage.new 210 297) "T" "C").add_layer "L1" 0).1.add_marker
      10 20 (1, 0) =
      (((PdfDocument.new (PdfPage.new 210 297) "T" "C").add_layer "L1" 0).1,
        Except.error ErrorKind.PdfPageIndexError)) ∧
    (((PdfDocument.new (PdfPage.new 210 297) "T" "C").add_layer "L1" 0).1.add_marker
      10 20 (0, 5) =
      (((PdfDocument.new (PdfPage.new 210 297) "T" "C").add_layer "L1" 0).1,
        Except.error ErrorKind.PdfLayerIndexError)) ∧
    ((((PdfDocument.new (PdfPage.new 210 297) "T" "C").add_layer "L1" 0).1.add_marker
      10 20 (0, 0)).2 = Except.ok (0, 0, 0)) ∧
    ((((PdfDocument.new (PdfPage.new 210 297) "T" "C").add_layer "L1" 0).1.add_marker
      10 20 (0, 0)).1.get_marker (0, 0, 0) =
      Except.ok { x_mm := 10, y_mm := 20 }) :=
  ⟨(add_marker_spec
      ((PdfDocument.new (PdfPage.new 210 297) "T" "C").add_layer "L1" 0).1
      10 20 1 0).1 (by decide),
   (add_marker_spec
      ((PdfDocument.new (PdfPage.new 210 297) "T" "C").add_layer "L1" 0).1
      10 20 0 5).2.1
      { width_mm := 210, height_mm := 297,
        layers := [{ name := "L1", markers := [] }] } (by decide) (by decide),
   ((add_marker_spec
      ((PdfDocument.new (PdfPage.new 210 297) "T" "C").add_layer "L1" 0).1
      10 20 0 0).2.2
      { width_mm := 210, height_mm := 297,
        layers := [{ name := "L1", markers := [] }] }
      { name := "L1", markers := [] } (by decide) (by decide)).1,
   ((add_marker_spec
      ((PdfDocument.new (PdfPage.new 210 297) "T" "C").add_layer "L1" 0).1
      10 20 0 0).2.2
      { width_mm := 210, height_mm := 297,
        layers := [{ name := "L1", markers := [] }] }
      { name := "L1", markers := [] } (by decide) (by decide)).2.2⟩

/-- Claim C4: `save` never returns at all — its body is `unimplemented!()`,
so for every document it unconditionally panics, returning neither `Ok` nor
an error, and writes nothing to the target.  In particular it never leaves
the sink with a partial write, but only because it never performs a write:
the spec's error contract for `save` is unimplemented. -/
theorem save_is_unimplemented (d : PdfDocument) :
    d.save = PanicOr.panics ∧
    ∀ r : Except ErrorKind Unit, d.save ≠ PanicOr.ok r := by
  exact ⟨rfl, fun r h => PanicOr.noConfusion h⟩

/-- Witness for C4 at a concrete document. -/
theorem save_is_unimplemented_witness :
    (PdfDocument.new (PdfPage.new 210 297) "T" "C").save = PanicOr.panics :=
  (save_is_unimplemented (PdfDocument.new (PdfPage.new 210 297) "T" "C")).1

/-- Claim C5: when font parsing fails, `add_font` propagates the parse error
(via the `?` operator, before any registration) and returns the document
with every field unchanged — the item is not registered on failure. -/
theorem add_font_parse_failure_leaves_document_unchanged (d : PdfDocument)
    (e : ErrorKind) :
    d.add_font (Except.error e) = (d, Except.error e) := rfl

/-- Claim C6: content registration is total (it returns a plain index, no
error path) and insertion-ordered with no deduplication: each returned index
equals the number of items registered before the call, so two successive
registrations — in particular two registrations of byte-identical fonts —
return distinct indices. -/
theorem registration_insertion_ordered_no_dedup (d : PdfDocument)
    (c₁ c₂ : ContentItem) :
    (d.add_arbitrary_content c₁).2 = d.contents.length ∧
    ((d.add_arbitrary_content c₁).1.add_arbitrary_content c₂).2 =
      d.contents.length + 1 ∧
    (d.add_arbitrary_content c₁).2 ≠
      ((d.add_arbitrary_content c₁).1.add_arbitrary_content c₂).2 ∧
    (∀ f : Font,
      (d.add_font (Except.ok f)).2 = Except.ok { index := d.contents.length } ∧
      ((d.add_font (Except.ok f)).1.add_font (Except.ok f)).2 =
        Except.ok { index := d.contents.length + 1 } ∧
      (d.add_font (Except.ok f)).2 ≠
        ((d.add_font (Except.ok f)).1.add_font (Except.ok f)).2) := by
  refine ⟨?_, ?_, ?_, ?_⟩
  · simp [PdfDocument.add_arbitrary_content]
  · simp [PdfDocument.add_arbitrary_content]
  · simp [PdfDocument.add_arbitrary_content]
  · intro f
    refine ⟨?_, ?_, ?_⟩
    · simp [PdfDocument.add_font, PdfDocument.add_arbitrary_content]
    · simp [PdfDocument.add_font, PdfDocument.add_arbitrary_content]
    · simp [PdfDocument.add_font, PdfDocument.add_arbitrary_content,
        FontIndex.mk.injEq]

/-- Claim C7: the millimetre-to-point conversion is the pure fixed
multiplicative function `mm * 2.834646` (the macro expands to exactly this
expression); as a plain function of one rational it touches no document
state. -/
theorem mm_to_pt_is_fixed_multiplication (mm : ℚ) :
    mm_to_pt mm = mm * 2.834646 ∧
    mm_to_pt mm = mm * (2834646 / 1000000) := by
  constructor
  · rfl
  · rw [mm_to_pt]
    norm_num

/-- Claim C8: `get_inner` is partial — it `unwrap`s the resolution of the
document's current marker, so whenever that address does not resolve it
panics instead of returning an error.  In particular a document freshly
constructed through `PdfDocument::new` on a `PdfPage::new` page (whose layer
sequence is empty) has current marker `(0, 0, 0)` pointing into a page with
no layers, and `get_inner` panics on it. -/
theorem get_inner_panics_on_unresolved_marker (d : PdfDocument) (x y : ℚ)
    (t c : String) :
    ((d.get_marker d.current_marker).isOk = false →
      d.get_inner = PanicOr.panics) ∧
    (PdfDocument.new (PdfPage.new x y) t c).current_marker = (0, 0, 0) ∧
    (PdfDocument.new (PdfPage.new x y) t c).get_inner = PanicOr.panics := by
  refine ⟨?_, rfl, rfl⟩
  intro h
  unfold PdfDocument.get_inner
  cases hm : d.get_marker d.current_marker with
  | ok m => rw [hm] at h; simp [Except.isOk, Except.toBool] at h
  | error e => rfl

/-- Witness for C8 at a concrete fresh document. -/
theorem get_inner_panics_on_unresolved_marker_witness :
    (PdfDocument.new (PdfPage.new 210 297) "T" "C").get_inner =
      PanicOr.panics :=
  (get_inner_panics_on_unresolved_marker
    (PdfDocument.new (PdfPage.new 210 297) "T" "C") 210 297 "T" "C").1
    (by decide)

/-- Claim C10: `add_text` is a stub — for every input (text, font index,
font size and position address, valid or not) it returns `Ok(())` and leaves
the document identical, performing no validation whatsoever. -/
theorem add_text_returns_ok_and_changes_nothing (d : PdfDocument)
    (text : String) (font : FontIndex) (font_size : Nat)
    (position : PdfMarkerIndex) :
    d.add_text text font font_size position = (d, Except.ok ()) := rfl

/-- The document states reachable through the public API: construction via
`new` (which requires an initial page) followed by any sequence of the
mutating operations.  No operation removes pages. -/
inductive Reachable : PdfDocument → Prop where
  | new (initial_page : PdfPage) (title creator : String) :
      Reachable (PdfDocument.new initial_page title creator)
  | add_page (d : PdfDocument) (x y : ℚ) :
      Reachable d → Reachable (d.add_page x y).1
  | add_layer (d : PdfDocument) (name : String) (page : PdfPageIndex) :
      Reachable d → Reachable (d.add_layer name page).1
  | add_marker (d : PdfDocument) (x y : ℚ) (layer : PdfLayerIndex) :
      Reachable d → Reachable (d.add_marker x y layer).1
  | add_arbitrary_content (d : PdfDocument) (c : ContentItem) :
      Reachable d → Reachable (d.add_arbitrary_content c).1
  | add_font (d : PdfDocument) (fr : Except ErrorKind Font) :
      Reachable d → Reachable (d.add_font fr).1
  | add_text (d : PdfDocument) (t : String) (f : FontIndex) (s : Nat)
      (pos : PdfMarkerIndex) :
      Reachable d → Reachable (d.add_text t f s pos).1
  | set_current_marker (d : PdfDocument) (m : PdfMarkerIndex) :
      Reachable d → Reachable (d.set_current_marker m)

/-- Every reachable document has at least one page: `new` starts with one
and every operation preserves or grows the page list. -/
theorem Reachable.one_le_pages_length {d : PdfDocument} (h : Reachable d) :
    1 ≤ d.pages.length := by
  induction h with
  | new initial_page title creator => simp [PdfDocument.new]
  | add_page d x y _ ih =>
    simp only [PdfDocument.add_page, List.length_append]
    omega
  | add_layer d name page _ ih =>
    unfold PdfDocument.add_layer
    split
    · exact ih
    · simpa using ih
  | add_marker d x y layer _ ih =>
    unfold PdfDocument.add_marker
    split
    · exact ih
    · split
      · exact ih
      · simpa [PdfLayer.add_marker] using ih
  | add_arbitrary_content d c _ ih => exact ih
  | add_font d fr _ ih =>
    unfold PdfDocument.add_font
    cases fr with
    | error e => exact ih
    | ok f => exact ih
  | add_text d t f s pos _ ih => exact ih
  | set_current_marker d m _ ih => exact ih

/-- Claim C9: every reachable `PdfDocument` has at least one page, so
`get_page 0` succeeds in every reachable state and `add_page` — which
appends and returns `pages.len() - 1` computed after the push — always
returns an index of at least 1. -/
theorem reachable_document_always_has_a_page (d : PdfDocument)
    (h : Reachable d) :
    1 ≤ d.pages.length ∧ (d.get_page 0).isOk = true ∧
    ∀ x y : ℚ, 1 ≤ (d.add_page x y).2 := by
  have hlen := h.one_le_pages_length
  refine ⟨hlen, ?_, ?_⟩
  · unfold PdfDocument.get_page
    cases hp : d.pages[0]? with
    | none =>
      rw [List.getElem?_eq_none_iff] at hp
      omega
    | some p => rfl
  · intro x y
    show 1 ≤ (d.pages ++ [PdfPage.new x y]).length - 1
    simp only [List.length_append, List.length_cons, List.length_nil]
    omega

/-- Witness for C9 at a concrete reachable document: a fresh document with
one further page added. -/
theorem reachable_document_always_has_a_page_witness :
    1 ≤ ((PdfDocument.new (PdfPage.new 210 297) "T" "C").add_page 100 100).1.pages.length ∧
    (((PdfDocument.new (PdfPage.new 210 297) "T" "C").add_page 100 100).1.get_page 0).isOk = true ∧
    ∀ x y : ℚ,
      1 ≤ (((PdfDocument.new (PdfPage.new 210 297) "T" "C").add_page 100 100).1.add_page x y).2 :=
  reachable_document_always_has_a_page _
    (Reachable.add_page _ 100 100 (Reachable.new _ "T" "C"))

end Printpdf
